import Mathlib

/-!
# UptimeRobot-Pebble: the monitor list (`src/monitorlist.c`)

A shallow embedding of the monitor table, the inbound message handler and the
menu-layer callbacks of `monitorlist.c`, followed by the properties of the
module's specification, each one stated on the embedded code.

Conventions of the embedding.

* The file-level `static` variables (`monitors`, `num_monitors`, `monitorError`,
  `monitorId`) are the fields of `State`; every function takes the state and
  returns the new one.
* Calls into the Pebble toolkit and into `details.c` that have an effect outside
  this file are appended to `State.calls`, in program order.
* A C string is the list of the characters before its terminating NUL. A
  `char[n]` array is the list of the characters it holds before its first NUL;
  it holds a terminated string exactly when that list is shorter than `n`, and
  an array filled by `strncpy` from a text of `n` characters or more holds `n`
  characters and no NUL.
* Executions that the C standard leaves undefined (a NULL tuple dereferenced, an
  access outside `monitors`, an `int` incremented past `INT_MAX`, a `char` array
  without NUL read as a string) end in a `Fault`; the functions in which this
  can happen return `Except Fault _`.
-/

namespace MonitorList

/-! ## Data model -/

/-- Capacity of the monitor table, `#define MAX_MONITORS 50`. -/
def MAX_MONITORS : Nat := 50

/-- Largest value of a C `int` on the 32-bit target. -/
def INT_MAX : Int := 2147483647

/-- Size of the selected-identifier buffer, `static char monitorId[128]`. -/
def SIZEOF_monitorId : Nat := 128

/-- The text of a C string: the characters before its terminating NUL. The same
type stands for the content of a `char[n]` array, the characters before its
first NUL; the array is NUL-terminated exactly when it holds fewer than `n`. -/
abbrev CString := List Char

/-- The C library function `strlen`. -/
def strlen (s : CString) : Nat := s.length

/-- The content of the array `dst` after `strncpy(dst, src, n)`, for a
terminated source: the first `n` characters of `src`. When `src` has fewer than
`n` characters the rest of `dst` is NUL; when it has `n` or more, `dst` holds `n`
characters and no NUL, which `readCString` reports to whoever reads `dst` as a
string. -/
def strncpy (src : CString) (n : Nat) : CString := src.take n

/-- Modelled from the spec: the record type `Monitor`, whose declaration
(`monitorlist.h`) is not part of the sources. The spec gives it an integer
`index`, three bounded-length texts `id`, `name`, `url` and a small integer
`status`; these are the five members `monitorlist.c` reads and writes. -/
structure Monitor where
  index : Int
  id : CString
  name : CString
  url : CString
  status : Int
deriving DecidableEq

/-- The values of `sizeof(monitor.id)`, `sizeof(monitor.name)` and
`sizeof(monitor.url)`. They are fixed by the declaration of `Monitor` in the
absent header, so the handler takes them as a parameter. -/
structure MonitorSizes where
  id : Nat
  name : Nat
  url : Nat

/-- The monitor every slot holds after `memset(monitors, 0x0, sizeof(monitors))`. -/
def Monitor.zero : Monitor :=
  { index := 0, id := [], name := [], url := [], status := 0 }

/-- The four status bitmaps created by `monitorslist_init`, named as the
variables that hold them: `x_menu_icon` is the "down" icon, `check_menu_icon`
the "up" icon, `pause_menu_icon` the "paused" icon and `question_menu_icon` the
"unknown" icon. -/
inductive GBitmap where
  | x_menu_icon
  | check_menu_icon
  | pause_menu_icon
  | question_menu_icon
deriving DecidableEq

/-- The calls that leave this file: the menu layer, the window stack, the
logger, the vibration motor and the details screen. -/
inductive Call where
  | menu_layer_set_selected_index (row : Nat) (section_index : Nat)
  | menu_layer_reload_data_and_mark_dirty
  | window_stack_push
  | app_log (args : List CString)
  | getDetails (id : CString)
  | vibes_double_pulse
deriving DecidableEq

/-- The static variables of `monitorlist.c`, and the outgoing calls made so far. -/
structure State where
  monitors : Fin MAX_MONITORS → Monitor
  num_monitors : Int
  monitorError : CString
  monitorId : CString
  calls : List Call

/-- The state of the statics at program start (zero-initialised). -/
def State.initial : State :=
  { monitors := fun _ => Monitor.zero
    num_monitors := 0
    monitorError := []
    monitorId := []
    calls := [] }

/-- The ways an execution leaves defined behaviour. -/
inductive Fault where
  | nullDereference
  | outOfBounds
  | signedOverflow
  | unterminatedString
deriving DecidableEq

/-- Reading a `char[n]` array as a C string, as `%s` does in `APP_LOG`: its text
when the array holds a NUL; an array of `n` characters without NUL makes the read
run past its end. -/
def readCString (n : Nat) (a : CString) : Except Fault CString :=
  if a.length < n then .ok a else .error .unterminatedString

/-- The content of `dst` after `strncpy(dst, src, n)` when the source is itself a
`char[m]` array: the copy stops at the NUL of `src` or after `n` characters; when
`src` holds no NUL and `n` exceeds `m` it reads past the end of `src`. -/
def strncpyFromArray (m : Nat) (src : CString) (n : Nat) : Except Fault CString :=
  if src.length < m ∨ n ≤ m then .ok (strncpy src n) else .error .unterminatedString

/-- The keys the handler looks up in an inbound message (their numeric values
are defined in `common.h`). -/
inductive AppKey where
  | MONITOR_INDEX
  | MONITOR_ID
  | MONITOR_NAME
  | MONITOR_URL
  | MONITOR_STATUS
deriving DecidableEq

/-- A dictionary tuple, seen through the two members of its value union the
handler reads: `value->int16` and `value->cstring`. -/
structure Tuple where
  int16 : Int
  cstring : CString
deriving DecidableEq

/-- An inbound message: what `dict_find` returns for each key (`none` is the
NULL pointer returned for a key the message does not carry). -/
abbrev DictionaryIterator := AppKey → Option Tuple

/-- The Pebble function `dict_find`. -/
def dict_find (iter : DictionaryIterator) (key : AppKey) : Option Tuple := iter key

/-- Dereferencing a tuple pointer: `t->value`. -/
def deref (t : Option Tuple) : Except Fault Tuple :=
  match t with
  | some v => .ok v
  | none => .error .nullDereference

/-- The array store `monitors[i] = m`. -/
def storeMonitor (a : Fin MAX_MONITORS → Monitor) (i : Int) (m : Monitor) :
    Except Fault (Fin MAX_MONITORS → Monitor) :=
  if 0 ≤ i ∧ i < (MAX_MONITORS : Int) then
    .ok (fun j => if (j.val : Int) = i then m else a j)
  else
    .error .outOfBounds

/-- The array read `monitors[row]`, with `row` the unsigned `cell_index->row`. -/
def loadMonitor (a : Fin MAX_MONITORS → Monitor) (row : Nat) : Except Fault Monitor :=
  if h : row < MAX_MONITORS then .ok (a ⟨row, h⟩) else .error .outOfBounds

/-- The increment `n++` of an `int`. -/
def intIncrement (n : Int) : Except Fault Int :=
  if n < INT_MAX then .ok (n + 1) else .error .signedOverflow

/-- Conversion of an `int` to the `uint16_t` a callback returns. -/
def toUInt16 (n : Int) : Nat := (n % 65536).toNat

/-! ## Operations -/

/-- `monitors_clean_list`. -/
def monitors_clean_list (s : State) : State :=
  { s with
    monitors := fun _ => Monitor.zero
    num_monitors := 0
    monitorError := []
    calls := s.calls ++
      [Call.menu_layer_set_selected_index 0 0, Call.menu_layer_reload_data_and_mark_dirty] }

/-- `monitorslist_show`. -/
def monitorslist_show (s : State) : State :=
  let s1 := monitors_clean_list s
  { s1 with calls := s1.calls ++ [Call.window_stack_push] }

/-- `monitorslist_in_received_handler`. -/
def monitorslist_in_received_handler (sz : MonitorSizes) (s : State)
    (iter : DictionaryIterator) : Except Fault State :=
  let index_tuple := dict_find iter .MONITOR_INDEX
  let id_tuple := dict_find iter .MONITOR_ID
  let name_tuple := dict_find iter .MONITOR_NAME
  let url_tuple := dict_find iter .MONITOR_URL
  let status_tuple := dict_find iter .MONITOR_STATUS
  match index_tuple, name_tuple with
  | some index_value, some name_value => do
    let index := index_value.int16
    let id_value ← deref id_tuple
    let id := strncpy id_value.cstring sz.id
    let name := strncpy name_value.cstring sz.name
    let url_value ← deref url_tuple
    let url := strncpy url_value.cstring sz.url
    let status_value ← deref status_tuple
    let monitor : Monitor :=
      { index := index, id := id, name := name, url := url, status := status_value.int16 }
    let monitors ← storeMonitor s.monitors monitor.index monitor
    let num_monitors ← intIncrement s.num_monitors
    let id_text ← readCString sz.id monitor.id
    let name_text ← readCString sz.name monitor.name
    pure { s with
      monitors := monitors
      num_monitors := num_monitors
      calls := s.calls ++
        [Call.app_log [id_text, name_text], Call.menu_layer_reload_data_and_mark_dirty] }
  | _, _ => pure s

/-- `monitors_menu_get_num_sections_callback`. -/
def monitors_menu_get_num_sections_callback (_s : State) : Nat := 1

/-- `monitors_menu_get_num_rows_callback`. -/
def monitors_menu_get_num_rows_callback (s : State) : Nat :=
  toUInt16 (if s.num_monitors ≠ 0 then s.num_monitors else 1)

/-- The arguments of one `menu_cell_basic_draw` call (`none` is a NULL argument):
the title and subtitle arrays are recorded as they are passed. -/
structure CellDraw where
  title : CString
  subtitle : Option CString
  icon : Option GBitmap
deriving DecidableEq

/-- `monitors_menu_draw_header_callback`: the title passed to
`menu_cell_basic_header_draw`. -/
def monitors_menu_draw_header_callback (_s : State) : CString := String.toList "Monitors"

/-- The `switch` of `monitors_menu_draw_row_callback`: the value it leaves in
`status_image` for a status (`none` is NULL). -/
def status_image (status : Int) : Option GBitmap :=
  match status with
  | 0 => some GBitmap.pause_menu_icon
  | 1 => some GBitmap.question_menu_icon
  | 2 => some GBitmap.check_menu_icon
  | 8 => some GBitmap.x_menu_icon
  | 9 => some GBitmap.x_menu_icon
  | _ => none

/-- `monitors_menu_draw_row_callback`, returning the cell it draws. -/
def monitors_menu_draw_row_callback (s : State) (row : Nat) : Except Fault CellDraw :=
  if strlen s.monitorError ≠ 0 then
    pure { title := String.toList "Error!", subtitle := some s.monitorError, icon := none }
  else if s.num_monitors = 0 then
    pure { title := String.toList "Loading...", subtitle := none, icon := none }
  else do
    let monitor ← loadMonitor s.monitors row
    pure { title := monitor.name, subtitle := some monitor.url,
           icon := status_image monitor.status }

/-- `monitors_menu_select_callback`. The source of the copy is the `id` array of
the slot, of `sz.id` bytes; `APP_LOG` then reads `monitorId` as a string. -/
def monitors_menu_select_callback (sz : MonitorSizes) (s : State) (row : Nat) :
    Except Fault State := do
  let monitor ← loadMonitor s.monitors row
  let monitorId ← strncpyFromArray sz.id monitor.id SIZEOF_monitorId
  let id_text ← readCString SIZEOF_monitorId monitorId
  pure { s with
    monitorId := monitorId
    calls := s.calls ++ [Call.app_log [id_text], Call.getDetails monitorId] }

/-- `monitors_menu_select_long_callback`. -/
def monitors_menu_select_long_callback (s : State) (_row : Nat) : State :=
  { s with calls := s.calls ++ [Call.vibes_double_pulse] }

/-- The handler run on a list of messages in turn, stopping at the first fault. -/
def receiveAll (sz : MonitorSizes) (s : State) : List DictionaryIterator → Except Fault State
  | [] => pure s
  | iter :: rest => do
    let s1 ← monitorslist_in_received_handler sz s iter
    receiveAll sz s1 rest

/-- A message carrying all five keys. -/
def message (index : Int) (id name url : CString) (status : Int) : DictionaryIterator
  | .MONITOR_INDEX => some { int16 := index, cstring := [] }
  | .MONITOR_ID => some { int16 := 0, cstring := id }
  | .MONITOR_NAME => some { int16 := 0, cstring := name }
  | .MONITOR_URL => some { int16 := 0, cstring := url }
  | .MONITOR_STATUS => some { int16 := status, cstring := [] }

/-- A message that carries all five keys, with its index inside the table and
an id and a name shorter than their fields. -/
def InRange (sz : MonitorSizes) (iter : DictionaryIterator) : Prop :=
  ∃ it idt nt ut st : Tuple,
    iter .MONITOR_INDEX = some it ∧ iter .MONITOR_ID = some idt ∧
    iter .MONITOR_NAME = some nt ∧ iter .MONITOR_URL = some ut ∧
    iter .MONITOR_STATUS = some st ∧ 0 ≤ it.int16 ∧ it.int16 < 50 ∧
    idt.cstring.length < sz.id ∧ nt.cstring.length < sz.name

/-- The states the module can be in: the zero-initialised statics, and what the
functions of the file make of a state they end in. -/
inductive Reachable (sz : MonitorSizes) : State → Prop where
  | initial : Reachable sz State.initial
  | shown (s : State) : Reachable sz s → Reachable sz (monitorslist_show s)
  | received (s s1 : State) (iter : DictionaryIterator) : Reachable sz s →
      monitorslist_in_received_handler sz s iter = .ok s1 → Reachable sz s1
  | selected (s s1 : State) (row : Nat) : Reachable sz s →
      monitors_menu_select_callback sz s row = .ok s1 → Reachable sz s1
  | long_pressed (s : State) (row : Nat) : Reachable sz s →
      Reachable sz (monitors_menu_select_long_callback s row)

/-! ## Concrete data used to evaluate the code -/

/-- Field sizes used when the code is evaluated on concrete inputs. -/
def sizes16 : MonitorSizes := { id := 16, name := 32, url := 64 }

/-- A well-formed message for slot 3. -/
def apiMessage : DictionaryIterator :=
  message 3 (String.toList "776") (String.toList "API") (String.toList "http://x") 2

/-- A message whose index equals the capacity. -/
def capacityMessage : DictionaryIterator :=
  message 50 (String.toList "776") (String.toList "API") (String.toList "http://x") 2

/-- A message for slot 3 that carries only the index and the name. -/
def bareMessage : DictionaryIterator
  | .MONITOR_INDEX => some { int16 := 3, cstring := [] }
  | .MONITOR_NAME => some { int16 := 0, cstring := String.toList "API" }
  | _ => none

/-- A message without the name key. -/
def namelessMessage : DictionaryIterator
  | .MONITOR_NAME => none
  | k => apiMessage k

/-- A populated store: three updates received, slot 3 filled, no error. -/
def populated : State :=
  { monitors := fun j =>
      if j.val = 3 then
        { index := 3, id := String.toList "776", name := String.toList "API",
          url := String.toList "http://x", status := 2 }
      else Monitor.zero
    num_monitors := 3
    monitorError := []
    monitorId := []
    calls := [] }

/-- A message for slot 3 whose content differs from what `populated` holds there. -/
def webMessage : DictionaryIterator :=
  message 3 (String.toList "901") (String.toList "Web") (String.toList "http://y") 8

/-- A message whose id has 16 characters, as many as the id field of `sizes16`. -/
def fullIdMessage : DictionaryIterator :=
  message 3 (String.toList "abcdefghijklmnop") (String.toList "API")
    (String.toList "http://x") 2

/-- A message whose url has 64 characters, as many as the url field of `sizes16`. -/
def fullUrlMessage : DictionaryIterator :=
  message 3 (String.toList "776") (String.toList "API") (List.replicate 64 'u') 2

/-- The table as line 98 leaves it when `fullIdMessage` arrives in `populated`:
the id array of slot 3 holds 16 characters and no NUL. -/
def fullIdStored : State :=
  { populated with
    monitors := fun j =>
      if j.val = 3 then
        { index := 3, id := String.toList "abcdefghijklmnop", name := String.toList "API",
          url := String.toList "http://x", status := 2 }
      else Monitor.zero }

/-- Field sizes with an id field larger than the selected-identifier buffer. -/
def sizes200 : MonitorSizes := { id := 200, name := 32, url := 64 }

/-- A message for slot 3 whose id has 128 characters. -/
def longIdMessage : DictionaryIterator :=
  message 3 (List.replicate 128 'a') (String.toList "API") (String.toList "http://x") 2

/-- The populated store with an error text set. -/
def failed : State := { populated with monitorError := String.toList "network down" }

/-- The populated store with the counter at `INT_MAX`. -/
def saturated : State := { populated with num_monitors := INT_MAX }

/-! ## The inbound handler -/

/-- The handler on a message that carries all five keys: the remaining steps are
the array store, the increment, the two reads of `APP_LOG` and the two outgoing
calls. -/
theorem handler_of_full (sz : MonitorSizes) (s : State) (iter : DictionaryIterator)
    (it idt nt ut st : Tuple)
    (hi : iter .MONITOR_INDEX = some it) (hid : iter .MONITOR_ID = some idt)
    (hn : iter .MONITOR_NAME = some nt) (hu : iter .MONITOR_URL = some ut)
    (hs : iter .MONITOR_STATUS = some st) :
    monitorslist_in_received_handler sz s iter =
      (storeMonitor s.monitors it.int16
        { index := it.int16, id := idt.cstring.take sz.id, name := nt.cstring.take sz.name,
          url := ut.cstring.take sz.url, status := st.int16 }).bind
        (fun monitors => (intIncrement s.num_monitors).bind
          (fun n => (readCString sz.id (idt.cstring.take sz.id)).bind
            (fun id_text => (readCString sz.name (nt.cstring.take sz.name)).bind
              (fun name_text => .ok { s with
                monitors := monitors
                num_monitors := n
                calls := s.calls ++
                  [Call.app_log [id_text, name_text],
                   Call.menu_layer_reload_data_and_mark_dirty] })))) := by
  unfold monitorslist_in_received_handler dict_find
  simp only [hi, hid, hn, hu, hs]
  rfl

/-- The handler on an in-range message with an id and a name shorter than their
fields, in a state whose count is below `INT_MAX`. -/
theorem handler_of_inRange (sz : MonitorSizes) (s : State) (iter : DictionaryIterator)
    (it idt nt ut st : Tuple)
    (hi : iter .MONITOR_INDEX = some it) (hid : iter .MONITOR_ID = some idt)
    (hn : iter .MONITOR_NAME = some nt) (hu : iter .MONITOR_URL = some ut)
    (hs : iter .MONITOR_STATUS = some st)
    (hr : 0 ≤ it.int16 ∧ it.int16 < 50) (hc : s.num_monitors < INT_MAX)
    (hidl : idt.cstring.length < sz.id) (hnl : nt.cstring.length < sz.name) :
    monitorslist_in_received_handler sz s iter =
      .ok { s with
        monitors := fun j =>
          if (j.val : Int) = it.int16 then
            { index := it.int16, id := idt.cstring, name := nt.cstring,
              url := ut.cstring.take sz.url, status := st.int16 }
          else s.monitors j
        num_monitors := s.num_monitors + 1
        calls := s.calls ++
          [Call.app_log [idt.cstring, nt.cstring],
           Call.menu_layer_reload_data_and_mark_dirty] } := by
  have hr2 : 0 ≤ it.int16 ∧ it.int16 < (MAX_MONITORS : Int) := by
    simpa [MAX_MONITORS] using hr
  rw [handler_of_full sz s iter it idt nt ut st hi hid hn hu hs]
  simp only [storeMonitor, if_pos hr2, intIncrement, if_pos hc, Except.bind,
    List.take_of_length_le (Nat.le_of_lt hidl), List.take_of_length_le (Nat.le_of_lt hnl),
    readCString, if_pos hidl, if_pos hnl]

/-- A handler run that ends in a state leaves the error text as it was. -/
theorem handler_keeps_error_text (sz : MonitorSizes) (s s1 : State)
    (iter : DictionaryIterator) (h : monitorslist_in_received_handler sz s iter = .ok s1) :
    s1.monitorError = s.monitorError := by
  cases hi : iter .MONITOR_INDEX with
  | none =>
    have h0 : monitorslist_in_received_handler sz s iter = .ok s := by
      unfold monitorslist_in_received_handler dict_find
      simp only [hi]; rfl
    rw [h0] at h
    cases h; rfl
  | some it =>
    cases hn : iter .MONITOR_NAME with
    | none =>
      have h0 : monitorslist_in_received_handler sz s iter = .ok s := by
        unfold monitorslist_in_received_handler dict_find
        simp only [hi, hn]; rfl
      rw [h0] at h
      cases h; rfl
    | some nt =>
      cases hid : iter .MONITOR_ID with
      | none =>
        exfalso
        unfold monitorslist_in_received_handler dict_find at h
        simp only [hi, hn, hid] at h
        cases h
      | some idt =>
        cases hu : iter .MONITOR_URL with
        | none =>
          exfalso
          unfold monitorslist_in_received_handler dict_find at h
          simp only [hi, hn, hid, hu] at h
          cases h
        | some ut =>
          cases hs : iter .MONITOR_STATUS with
          | none =>
            exfalso
            unfold monitorslist_in_received_handler dict_find at h
            simp only [hi, hn, hid, hu, hs] at h
            cases h
          | some st =>
            rw [handler_of_full sz s iter it idt nt ut st hi hid hn hu hs] at h
            unfold storeMonitor intIncrement readCString at h
            split at h
            · split at h
              · split at h
                · split at h
                  · simp only [Except.bind] at h
                    cases h; rfl
                  · simp only [Except.bind] at h
                    cases h
                · simp only [Except.bind] at h
                  cases h
              · simp only [Except.bind] at h
                cases h
            · simp only [Except.bind] at h
              cases h

/-- C3. A message in which the index key or the name key is absent is dropped:
the handler returns the state it was given, so every slot, the count, the error
text and the selected identifier are unchanged and no call (in particular no
redraw request) is issued. -/
theorem handler_drops_message_without_index_or_name (sz : MonitorSizes) (s : State)
    (iter : DictionaryIterator)
    (h : iter .MONITOR_INDEX = none ∨ iter .MONITOR_NAME = none) :
    monitorslist_in_received_handler sz s iter = .ok s := by
  unfold monitorslist_in_received_handler dict_find
  rcases h with h | h
  · simp only [h]; rfl
  · simp only [h]
    cases iter .MONITOR_INDEX <;> rfl

/-- The populated store receives a message without the name key and is returned as it was. -/
theorem handler_drops_message_without_index_or_name_witness :
    (namelessMessage .MONITOR_INDEX = none ∨ namelessMessage .MONITOR_NAME = none) ∧
      monitorslist_in_received_handler sizes16 populated namelessMessage = .ok populated :=
  ⟨Or.inr rfl,
    handler_drops_message_without_index_or_name sizes16 populated namelessMessage (Or.inr rfl)⟩

/-- C2 (as amended). For a message that carries all five keys with its index
`i` in `[0, 50)` and an id, a name and a url each shorter than its field, received
in a state whose count is below `INT_MAX`, the handler succeeds; afterwards slot
`i` holds the message's index, id, name, url and status, whatever it held
before, every other slot is as before, the count is one more than before and the
error text is unchanged. -/
theorem handler_writes_slot (sz : MonitorSizes) (s : State) (iter : DictionaryIterator)
    (it idt nt ut st : Tuple)
    (hi : iter .MONITOR_INDEX = some it) (hid : iter .MONITOR_ID = some idt)
    (hn : iter .MONITOR_NAME = some nt) (hu : iter .MONITOR_URL = some ut)
    (hs : iter .MONITOR_STATUS = some st)
    (hr : 0 ≤ it.int16 ∧ it.int16 < 50) (hc : s.num_monitors < INT_MAX)
    (hidl : idt.cstring.length < sz.id) (hnl : nt.cstring.length < sz.name)
    (hul : ut.cstring.length < sz.url) :
    ∃ s1, monitorslist_in_received_handler sz s iter = .ok s1 ∧
      (∀ j : Fin MAX_MONITORS, (j.val : Int) = it.int16 →
        s1.monitors j =
          { index := it.int16, id := idt.cstring, name := nt.cstring,
            url := ut.cstring, status := st.int16 }) ∧
      (∀ j : Fin MAX_MONITORS, (j.val : Int) ≠ it.int16 → s1.monitors j = s.monitors j) ∧
      s1.num_monitors = s.num_monitors + 1 ∧
      s1.monitorError = s.monitorError := by
  rw [handler_of_inRange sz s iter it idt nt ut st hi hid hn hu hs hr hc hidl hnl]
  refine ⟨_, rfl, ?_, ?_, rfl, rfl⟩
  · intro j hj
    simp only [if_pos hj, List.take_of_length_le (Nat.le_of_lt hul)]
  · intro j hj
    simp only [if_neg hj]

/-- The populated store, whose slot 3 holds "776", "API", "http://x" and status
2, receives "901", "Web", "http://y" and status 8 for slot 3: the slot holds the
new record, the count goes from 3 to 4 and the error text stays empty. -/
theorem handler_writes_slot_witness :
    populated.monitors ⟨3, by decide⟩ =
        { index := 3, id := String.toList "776", name := String.toList "API",
          url := String.toList "http://x", status := 2 } ∧
    ∃ s1, monitorslist_in_received_handler sizes16 populated webMessage = .ok s1 ∧
      (∀ j : Fin MAX_MONITORS, (j.val : Int) = 3 →
        s1.monitors j =
          { index := 3, id := String.toList "901", name := String.toList "Web",
            url := String.toList "http://y", status := 8 }) ∧
      (∀ j : Fin MAX_MONITORS, (j.val : Int) ≠ 3 → s1.monitors j = populated.monitors j) ∧
      s1.num_monitors = 4 ∧
      s1.monitorError = [] :=
  ⟨rfl,
   handler_writes_slot sizes16 populated webMessage
    { int16 := 3, cstring := [] } { int16 := 0, cstring := String.toList "901" }
    { int16 := 0, cstring := String.toList "Web" }
    { int16 := 0, cstring := String.toList "http://y" } { int16 := 8, cstring := [] }
    rfl rfl rfl rfl rfl (by decide) (by decide) (by decide) (by decide) (by decide)⟩

/-- C2 (as stated) fails in three ways. With the count at `INT_MAX` the increment
of the `int` counter has no defined result. With an id of 16 characters for a
16-byte id field, `strncpy` leaves the field without NUL and `APP_LOG` reads past
it. With a url of 64 characters for a 64-byte url field the handler ends, but the
url array of the slot holds 64 characters and no NUL, so it is not a string. -/
theorem handler_saturated_count_or_full_field :
    (saturated.num_monitors = 2147483647 ∧
      monitorslist_in_received_handler sizes16 saturated apiMessage =
        .error .signedOverflow) ∧
    monitorslist_in_received_handler sizes16 populated fullIdMessage =
      .error .unterminatedString ∧
    (∃ s1, monitorslist_in_received_handler sizes16 populated fullUrlMessage = .ok s1 ∧
      (s1.monitors ⟨3, by decide⟩).url = List.replicate 64 'u' ∧
      readCString sizes16.url (s1.monitors ⟨3, by decide⟩).url =
        .error .unterminatedString) := by
  refine ⟨⟨rfl, ?_⟩, ?_, ?_⟩
  · rw [handler_of_full sizes16 saturated apiMessage _ _ _ _ _ rfl rfl rfl rfl rfl]
    rfl
  · rw [handler_of_full sizes16 populated fullIdMessage _ _ _ _ _ rfl rfl rfl rfl rfl]
    rfl
  · rw [handler_of_full sizes16 populated fullUrlMessage _ _ _ _ _ rfl rfl rfl rfl rfl]
    exact ⟨_, rfl, rfl, rfl⟩

/-- C1. The handler has no range check. For a message with an index outside
`[0, 50)` and a name, execution never ends in a state: it stops at a NULL tuple
or reaches the store `monitors[monitor.index] = monitor` with the index outside
the table; when the message carries all five keys it is the store outside the
table that is reached. The update is not rejected with the store left intact. -/
theorem handler_out_of_range_is_undefined (sz : MonitorSizes) (s : State)
    (iter : DictionaryIterator) (it nt : Tuple)
    (hi : iter .MONITOR_INDEX = some it) (hn : iter .MONITOR_NAME = some nt)
    (hr : it.int16 < 0 ∨ 50 ≤ it.int16) :
    (monitorslist_in_received_handler sz s iter = .error .nullDereference ∨
      monitorslist_in_received_handler sz s iter = .error .outOfBounds) ∧
    ((iter .MONITOR_ID).isSome → (iter .MONITOR_URL).isSome → (iter .MONITOR_STATUS).isSome →
      monitorslist_in_received_handler sz s iter = .error .outOfBounds) := by
  have hr2 : ¬ (0 ≤ it.int16 ∧ it.int16 < (MAX_MONITORS : Int)) := by
    simp only [MAX_MONITORS, Nat.cast_ofNat]; omega
  have full : ∀ idt ut st, iter .MONITOR_ID = some idt → iter .MONITOR_URL = some ut →
      iter .MONITOR_STATUS = some st →
      monitorslist_in_received_handler sz s iter = .error .outOfBounds := by
    intro idt ut st hid hu hs
    rw [handler_of_full sz s iter it idt nt ut st hi hid hn hu hs]
    simp only [storeMonitor, if_neg hr2, Except.bind]
  constructor
  · cases hid : iter .MONITOR_ID with
    | none =>
      left
      unfold monitorslist_in_received_handler dict_find
      simp only [hi, hn, hid]
      rfl
    | some idt =>
      cases hu : iter .MONITOR_URL with
      | none =>
        left
        unfold monitorslist_in_received_handler dict_find
        simp only [hi, hn, hid, hu]
        rfl
      | some ut =>
        cases hs : iter .MONITOR_STATUS with
        | none =>
          left
          unfold monitorslist_in_received_handler dict_find
          simp only [hi, hn, hid, hu, hs]
          rfl
        | some st => exact Or.inr (full idt ut st hid hu hs)
  · intro h1 h2 h3
    obtain ⟨idt, hid⟩ := Option.isSome_iff_exists.mp h1
    obtain ⟨ut, hu⟩ := Option.isSome_iff_exists.mp h2
    obtain ⟨st, hs⟩ := Option.isSome_iff_exists.mp h3
    exact full idt ut st hid hu hs

/-- The message whose index is 50, all five keys present, makes the handler store outside the table. -/
theorem handler_out_of_range_is_undefined_witness :
    monitorslist_in_received_handler sizes16 populated capacityMessage = .error .outOfBounds :=
  (handler_out_of_range_is_undefined sizes16 populated capacityMessage
    { int16 := 50, cstring := [] } { int16 := 0, cstring := String.toList "API" }
    rfl rfl (Or.inr (by decide))).2 rfl rfl rfl

/-- C8. The handler tests only the index and name tuples for NULL. For a message
with an in-range index and a name in which the id key, the url key or the status
key is absent, execution dereferences the NULL tuple: no slot is written, the
count is not incremented and no default value is stored. -/
theorem handler_missing_optional_key_is_undefined (sz : MonitorSizes) (s : State)
    (iter : DictionaryIterator) (it nt : Tuple)
    (hi : iter .MONITOR_INDEX = some it) (hn : iter .MONITOR_NAME = some nt)
    (_hr : 0 ≤ it.int16 ∧ it.int16 < 50)
    (h : iter .MONITOR_ID = none ∨ iter .MONITOR_URL = none ∨ iter .MONITOR_STATUS = none) :
    monitorslist_in_received_handler sz s iter = .error .nullDereference := by
  unfold monitorslist_in_received_handler dict_find
  simp only [hi, hn]
  cases hid : iter .MONITOR_ID with
  | none => rfl
  | some idt =>
    cases hu : iter .MONITOR_URL with
    | none => rfl
    | some ut =>
      cases hs : iter .MONITOR_STATUS with
      | none => rfl
      | some st => simp [hid, hu, hs] at h

/-- The message for slot 3 with only an index and a name makes the handler dereference a NULL tuple. -/
theorem handler_missing_optional_key_is_undefined_witness :
    monitorslist_in_received_handler sizes16 populated bareMessage = .error .nullDereference :=
  handler_missing_optional_key_is_undefined sizes16 populated bareMessage
    { int16 := 3, cstring := [] } { int16 := 0, cstring := String.toList "API" }
    rfl rfl (by decide) (Or.inl rfl)

/-! ## The menu callbacks -/

/-- A select run that ends in a state leaves the error text as it was. -/
theorem select_keeps_error_text (sz : MonitorSizes) (s s1 : State) (row : Nat)
    (h : monitors_menu_select_callback sz s row = .ok s1) :
    s1.monitorError = s.monitorError := by
  unfold monitors_menu_select_callback at h
  by_cases hr : row < MAX_MONITORS
  · by_cases h1 : (s.monitors ⟨row, hr⟩).id.length < sz.id ∨ SIZEOF_monitorId ≤ sz.id
    · by_cases h2 : (strncpy (s.monitors ⟨row, hr⟩).id SIZEOF_monitorId).length <
          SIZEOF_monitorId
      · simp only [loadMonitor, dif_pos hr, strncpyFromArray, if_pos h1, readCString,
          if_pos h2, bind, Except.bind, pure, Except.pure] at h
        cases h; rfl
      · simp only [loadMonitor, dif_pos hr, strncpyFromArray, if_pos h1, readCString,
          if_neg h2, bind, Except.bind] at h
        cases h
    · simp only [loadMonitor, dif_pos hr, strncpyFromArray, if_neg h1, bind,
        Except.bind] at h
      cases h
  · simp only [loadMonitor, dif_neg hr, bind, Except.bind] at h
    cases h

/-- C4 (as amended). No state the module reaches has an error text: the only
write to `monitorError` is the one that clears it. With the error text empty the
row count is 1 when the count is 0 and is the count itself when the count lies in
`[1, 65535]`. -/
theorem num_rows_without_error :
    (∀ (sz : MonitorSizes) (s : State), Reachable sz s → s.monitorError = []) ∧
    (∀ s : State, s.monitorError = [] →
      (s.num_monitors = 0 → monitors_menu_get_num_rows_callback s = 1) ∧
      (1 ≤ s.num_monitors → s.num_monitors ≤ 65535 →
        (monitors_menu_get_num_rows_callback s : Int) = s.num_monitors)) := by
  constructor
  · intro sz s hs
    induction hs with
    | initial => rfl
    | shown s _ _ => rfl
    | received s s1 iter _ h ih => rw [handler_keeps_error_text sz s s1 iter h, ih]
    | selected s s1 row _ h ih => rw [select_keeps_error_text sz s s1 row h, ih]
    | long_pressed s row _ ih => exact ih
  · intro s _
    constructor
    · intro h
      simp [monitors_menu_get_num_rows_callback, toUInt16, h]
    · intro h1 h2
      have h : s.num_monitors ≠ 0 := by omega
      simp only [monitors_menu_get_num_rows_callback, toUInt16, if_pos h]
      omega

/-- The populated store has no error text and offers 3 rows for its count of 3. -/
theorem num_rows_without_error_witness :
    populated.monitorError = [] ∧ populated.num_monitors = 3 ∧
      (monitors_menu_get_num_rows_callback populated : Int) = 3 :=
  ⟨rfl, rfl, (num_rows_without_error.2 populated rfl).2 (by decide) (by decide)⟩

/-- C6. With a non-empty error text the row callback draws the title "Error!",
the error text as subtitle and no icon, for every row and whatever the slots and
the count hold: the error test comes before the test of the count and before
any slot is read. -/
theorem draw_row_error (s : State) (row : Nat) (he : s.monitorError ≠ []) :
    monitors_menu_draw_row_callback s row =
      .ok { title := String.toList "Error!", subtitle := some s.monitorError,
            icon := none } := by
  unfold monitors_menu_draw_row_callback
  have h : strlen s.monitorError ≠ 0 := by
    simpa [strlen] using he
  simp only [if_pos h]
  rfl

/-- The error row is drawn for row 0 of the failed store, and for row 7 when its count is 0. -/
theorem draw_row_error_witness :
    monitors_menu_draw_row_callback failed 0 =
        .ok { title := String.toList "Error!",
              subtitle := some (String.toList "network down"), icon := none } ∧
      monitors_menu_draw_row_callback { failed with num_monitors := 0 } 7 =
        .ok { title := String.toList "Error!",
              subtitle := some (String.toList "network down"), icon := none } :=
  ⟨draw_row_error failed 0 (by decide),
   draw_row_error { failed with num_monitors := 0 } 7 (by decide)⟩

/-- C7. From every state, `monitors_clean_list` gives a state in which all 50
slots are zeroed, the count is 0 and the error text is empty; in that state the
row count is 1 and row 0 is drawn with the title "Loading...", no subtitle and
no icon. -/
theorem clean_list_resets (s : State) :
    (∀ j : Fin MAX_MONITORS, (monitors_clean_list s).monitors j =
      { index := 0, id := [], name := [], url := [], status := 0 }) ∧
    (monitors_clean_list s).num_monitors = 0 ∧
    (monitors_clean_list s).monitorError = [] ∧
    monitors_menu_get_num_rows_callback (monitors_clean_list s) = 1 ∧
    monitors_menu_draw_row_callback (monitors_clean_list s) 0 =
      .ok { title := String.toList "Loading...",
            subtitle := none, icon := none } :=
  ⟨fun _ => rfl, rfl, rfl, rfl, rfl⟩

/-- C9 (as amended). For a row below 50 whose slot holds an id that is
NUL-terminated in its field and shorter than 128 characters, the select callback
makes the selected identifier the id of that slot and calls `getDetails` once,
with that identifier; the slots, the count and the error text are unchanged. The
long-press callback only pulses the vibration motor: it makes no `getDetails`
call and leaves the slots, the count, the error text and the selected identifier
unchanged. -/
theorem select_callbacks (sz : MonitorSizes) (s : State) (row : Nat)
    (hr : row < MAX_MONITORS)
    (hterm : (s.monitors ⟨row, hr⟩).id.length < sz.id)
    (hfit : (s.monitors ⟨row, hr⟩).id.length < 128) :
    (∃ s1, monitors_menu_select_callback sz s row = .ok s1 ∧
      s1.monitorId = (s.monitors ⟨row, hr⟩).id ∧
      s1.calls = s.calls ++
        [Call.app_log [(s.monitors ⟨row, hr⟩).id], Call.getDetails (s.monitors ⟨row, hr⟩).id] ∧
      s1.monitors = s.monitors ∧ s1.num_monitors = s.num_monitors ∧
      s1.monitorError = s.monitorError) ∧
    ((monitors_menu_select_long_callback s row).calls = s.calls ++ [Call.vibes_double_pulse] ∧
      (monitors_menu_select_long_callback s row).monitors = s.monitors ∧
      (monitors_menu_select_long_callback s row).num_monitors = s.num_monitors ∧
      (monitors_menu_select_long_callback s row).monitorError = s.monitorError ∧
      (monitors_menu_select_long_callback s row).monitorId = s.monitorId) := by
  refine ⟨?_, rfl, rfl, rfl, rfl, rfl⟩
  have hcopy : strncpy (s.monitors ⟨row, hr⟩).id SIZEOF_monitorId = (s.monitors ⟨row, hr⟩).id :=
    List.take_of_length_le (Nat.le_of_lt hfit)
  have hfit2 : (s.monitors ⟨row, hr⟩).id.length < SIZEOF_monitorId := hfit
  unfold monitors_menu_select_callback
  simp only [loadMonitor, dif_pos hr, strncpyFromArray, if_pos (Or.inl hterm), hcopy,
    readCString, if_pos hfit2, bind, Except.bind, pure, Except.pure]
  exact ⟨_, rfl, rfl, rfl, rfl, rfl, rfl⟩

/-- Selecting row 3 of the populated store selects the id "776" and calls `getDetails` with it. -/
theorem select_callbacks_witness :
    ∃ s1, monitors_menu_select_callback sizes16 populated 3 = .ok s1 ∧
      s1.monitorId = String.toList "776" ∧
      s1.calls = [Call.app_log [String.toList "776"], Call.getDetails (String.toList "776")] := by
  obtain ⟨⟨s1, h, hid, hcalls, -⟩, -⟩ :=
    select_callbacks sizes16 populated 3 (by decide) (by decide) (by decide)
  exact ⟨s1, h, hid, hcalls⟩

/-- The select callback on a slot whose id is terminated in its field but has 128
characters or more: the copy fills `monitorId`, and `APP_LOG` reads past it. -/
theorem select_of_full_monitorId (sz : MonitorSizes) (s : State) (row : Nat)
    (hr : row < MAX_MONITORS)
    (hterm : (s.monitors ⟨row, hr⟩).id.length < sz.id)
    (hlong : 128 ≤ (s.monitors ⟨row, hr⟩).id.length) :
    monitors_menu_select_callback sz s row = .error .unterminatedString := by
  have hfull : ¬ (strncpy (s.monitors ⟨row, hr⟩).id SIZEOF_monitorId).length <
      SIZEOF_monitorId := by
    simp only [strncpy, SIZEOF_monitorId, List.length_take]
    omega
  unfold monitors_menu_select_callback
  simp only [loadMonitor, dif_pos hr, strncpyFromArray, if_pos (Or.inl hterm),
    readCString, if_neg hfull, bind, Except.bind]

/-- C9 (as stated) fails in two ways. With 16-byte id fields, a slot whose id
array holds 16 characters and no NUL (what line 98 stores for a 16-character id)
makes the `strncpy` of the select callback read past the array. With 200-byte id
fields, a reset followed by one update with a 128-character id gives a slot for
which the copy fills `monitorId` with 128 characters and no NUL, and `APP_LOG`
reads past it. In neither case is `getDetails` called with the id of the slot. -/
theorem select_on_unterminated_id :
    ((fullIdStored.monitors ⟨3, by decide⟩).id = String.toList "abcdefghijklmnop" ∧
      monitors_menu_select_callback sizes16 fullIdStored 3 = .error .unterminatedString) ∧
    (∃ s1, monitorslist_in_received_handler sizes200 (monitors_clean_list State.initial)
          longIdMessage = .ok s1 ∧
      (s1.monitors ⟨3, by decide⟩).id = List.replicate 128 'a' ∧
      monitors_menu_select_callback sizes200 s1 3 = .error .unterminatedString) := by
  refine ⟨⟨rfl, rfl⟩, ?_⟩
  have hlen : (List.replicate 128 'a').length = 128 := List.length_replicate 128 'a'
  have hstep := handler_of_inRange sizes200 (monitors_clean_list State.initial) longIdMessage
    { int16 := 3, cstring := [] } { int16 := 0, cstring := List.replicate 128 'a' }
    { int16 := 0, cstring := String.toList "API" }
    { int16 := 0, cstring := String.toList "http://x" } { int16 := 2, cstring := [] }
    rfl rfl rfl rfl rfl (by decide) (by decide)
    (by show (List.replicate 128 'a').length < 200; rw [hlen]; decide) (by decide)
  refine ⟨_, hstep, rfl, ?_⟩
  exact select_of_full_monitorId sizes200 _ 3 (by decide)
    (by show (List.replicate 128 'a').length < 200; rw [hlen]; decide)
    (by show 128 ≤ (List.replicate 128 'a').length; rw [hlen])

/-! ## Row indices offered to the toolkit -/

/-- Every in-range message received adds one to the count and leaves the error
text alone, as long as the count stays within `int`. -/
theorem receiveAll_count (sz : MonitorSizes) (msgs : List DictionaryIterator) :
    ∀ s : State, (∀ iter ∈ msgs, InRange sz iter) →
      s.num_monitors + msgs.length ≤ INT_MAX →
      ∃ s1, receiveAll sz s msgs = .ok s1 ∧
        s1.num_monitors = s.num_monitors + msgs.length ∧
        s1.monitorError = s.monitorError := by
  induction msgs with
  | nil =>
    intro s _ _
    exact ⟨s, rfl, by simp, rfl⟩
  | cons iter rest ih =>
    intro s hall hc
    obtain ⟨it, idt, nt, ut, st, hi, hid, hn, hu, hs, h0, h50, hidl, hnl⟩ :=
      hall iter (List.mem_cons_self _ _)
    have hlen : ((iter :: rest).length : Int) = (rest.length : Int) + 1 := by
      simp
    have hlt : s.num_monitors < INT_MAX := by omega
    have hstep := handler_of_inRange sz s iter it idt nt ut st hi hid hn hu hs
      ⟨h0, h50⟩ hlt hidl hnl
    obtain ⟨s1, h1, hn1, he1⟩ :
        ∃ s1, monitorslist_in_received_handler sz s iter = .ok s1 ∧
          s1.num_monitors = s.num_monitors + 1 ∧ s1.monitorError = s.monitorError :=
      ⟨_, hstep, rfl, rfl⟩
    obtain ⟨s2, h2, hn2, he2⟩ := ih s1
      (fun m hm => hall m (List.mem_cons_of_mem _ hm)) (by omega)
    refine ⟨s2, ?_, ?_, ?_⟩
    · simp only [receiveAll, h1]
      exact h2
    · omega
    · rw [he2, he1]

/-- The row callback reads outside the table for a row of 50 or more, once there
is no error text and the count is non-zero. -/
theorem draw_row_outside_table (s : State) (row : Nat)
    (he : s.monitorError = []) (hc : s.num_monitors ≠ 0) (hr : MAX_MONITORS ≤ row) :
    monitors_menu_draw_row_callback s row = .error .outOfBounds := by
  unfold monitors_menu_draw_row_callback
  simp only [strlen, he, List.length_nil, ne_eq, not_true_eq_false, if_false, if_neg hc,
    loadMonitor, dif_neg (Nat.not_lt.mpr hr)]
  rfl

/-- The select callback reads outside the table for a row of 50 or more. -/
theorem select_outside_table (sz : MonitorSizes) (s : State) (row : Nat)
    (hr : MAX_MONITORS ≤ row) :
    monitors_menu_select_callback sz s row = .error .outOfBounds := by
  unfold monitors_menu_select_callback
  simp only [loadMonitor, dif_neg (Nat.not_lt.mpr hr)]
  rfl

/-- A message built by `message` with an index in `[0, 50)` and an id and a name
shorter than their fields is in range. -/
theorem message_inRange (sz : MonitorSizes) (index : Int) (id name url : CString)
    (status : Int) (h : 0 ≤ index ∧ index < 50)
    (hid : id.length < sz.id) (hname : name.length < sz.name) :
    InRange sz (message index id name url status) :=
  ⟨_, _, _, _, _, rfl, rfl, rfl, rfl, rfl, h.1, h.2, hid, hname⟩

/-- After a reset followed by at most 50 in-range updates, every row below the
row count is a slot of the table. -/
theorem rows_within_table_up_to_capacity (sz : MonitorSizes) (s0 : State)
    (msgs : List DictionaryIterator) (hall : ∀ iter ∈ msgs, InRange sz iter)
    (hlen : msgs.length ≤ MAX_MONITORS) :
    ∃ s, receiveAll sz (monitors_clean_list s0) msgs = .ok s ∧
      ∀ row, row < monitors_menu_get_num_rows_callback s → row < MAX_MONITORS := by
  have hlen2 : msgs.length ≤ 50 := hlen
  obtain ⟨s, hs, hn, -⟩ := receiveAll_count sz msgs (monitors_clean_list s0) hall
    (by show (0 : Int) + (msgs.length : Int) ≤ INT_MAX; simp only [INT_MAX]; omega)
  refine ⟨s, hs, ?_⟩
  have hn2 : s.num_monitors = (msgs.length : Int) := by
    rw [hn]; show (0 : Int) + (msgs.length : Int) = _; omega
  intro row hrow
  simp only [monitors_menu_get_num_rows_callback, toUInt16, hn2] at hrow
  simp only [MAX_MONITORS]
  split at hrow <;> omega

/-- C4 (as stated) fails after a reset followed by 65536 updates for slot 0: the
error text is empty and the count is 65536, but the row count returned is 0, not
the count. -/
theorem num_rows_after_65536_updates :
    ∃ s, receiveAll sizes16 (monitors_clean_list State.initial)
          (List.replicate 65536 (message 0 ['7'] ['A'] ['u'] 2)) = .ok s ∧
      s.monitorError = [] ∧ s.num_monitors = 65536 ∧
      monitors_menu_get_num_rows_callback s = 0 := by
  obtain ⟨s, hs, hn, he⟩ := receiveAll_count sizes16
    (List.replicate 65536 (message 0 ['7'] ['A'] ['u'] 2)) (monitors_clean_list State.initial)
    (fun iter hm => by
      rw [List.eq_of_mem_replicate hm]
      exact message_inRange sizes16 0 _ _ _ 2 (by decide) (by decide) (by decide))
    (by
      rw [List.length_replicate]
      decide)
  have hn2 : s.num_monitors = 65536 := by
    rw [hn, List.length_replicate]; rfl
  refine ⟨s, hs, he, hn2, ?_⟩
  simp only [monitors_menu_get_num_rows_callback, toUInt16, hn2]
  decide

/-- C10. Fifty-one updates for slot 0 after a reset, every index in range, give
a count of 51: the menu is told there are 51 rows, and for row 50, which is below
the row count, both the row callback and the select callback read `monitors[50]`,
outside the 50-slot table. -/
theorem row_count_exceeds_capacity :
    ∃ s, receiveAll sizes16 (monitors_clean_list State.initial)
          (List.replicate 51 (message 0 ['7'] ['A'] ['u'] 2)) = .ok s ∧
      monitors_menu_get_num_rows_callback s = 51 ∧
      50 < monitors_menu_get_num_rows_callback s ∧
      monitors_menu_draw_row_callback s 50 = .error .outOfBounds ∧
      monitors_menu_select_callback sizes16 s 50 = .error .outOfBounds := by
  obtain ⟨s, hs, hn, he⟩ := receiveAll_count sizes16
    (List.replicate 51 (message 0 ['7'] ['A'] ['u'] 2)) (monitors_clean_list State.initial)
    (fun iter hm => by
      rw [List.eq_of_mem_replicate hm]
      exact message_inRange sizes16 0 _ _ _ 2 (by decide) (by decide) (by decide))
    (by decide)
  have hn2 : s.num_monitors = 51 := by
    rw [hn]; decide
  have hrows : monitors_menu_get_num_rows_callback s = 51 := by
    simp only [monitors_menu_get_num_rows_callback, toUInt16, hn2]
    decide
  refine ⟨s, hs, hrows, ?_, ?_, ?_⟩
  · rw [hrows]; decide
  · exact draw_row_outside_table s 50 he (by rw [hn2]; decide) (by decide)
  · exact select_outside_table sizes16 s 50 (by decide)

end MonitorList
